import Mathlib

/-!
# Transceiver driver interface (`trx_driver.h`)

A shallow embedding of the data model and of the two inline operations of
`trx_driver.h`, followed by the properties established about them.

Conventions of the embedding:
* C `int` values are `Int`; width matters only where a value has to fit the
  type, and there the width in bits is an explicit argument (`intFits`).
* Flag words are built from non-negative constants with `<<` and `|`; they are
  embedded as `Nat` and shown to fit `int` separately.
* Pointers that the header never dereferences are addresses (`Ptr`).
* There is one memory, of type `M`. The object `*s` lives in it, and the
  argument `s` of an operation is the way to read that object out of a memory.
* The host callbacks are arbitrary host code: they are functions that may read
  and update the whole memory, the object `*s` included.
-/

namespace TRX

/-! ## Constants -/

/-- Macro `#define TRX_API_VERSION 11` -/
def TRX_API_VERSION : Int := 11

/-- Macro `#define TRX_MAX_CHANNELS 16` -/
def TRX_MAX_CHANNELS : Nat := 16

/-- Macro `#define TRX_MAX_RF_PORT  TRX_MAX_CHANNELS` -/
def TRX_MAX_RF_PORT : Nat := TRX_MAX_CHANNELS

/-- Macro `#define TRX_WRITE_FLAG_PADDING        (1 << 0)` -/
def TRX_WRITE_FLAG_PADDING : Nat := 1 <<< 0

/-- Macro `#define TRX_WRITE_FLAG_END_OF_BURST   (1 << 1)` -/
def TRX_WRITE_FLAG_END_OF_BURST : Nat := 1 <<< 1

/-- Macro `#define TRX_WRITE_FLAG_HARQ_ACK_PRESENT (1 << 2)` -/
def TRX_WRITE_FLAG_HARQ_ACK_PRESENT : Nat := 1 <<< 2

/-- Macro `#define TRX_WRITE_FLAG_HARQ_ACK_SHIFT 3` -/
def TRX_WRITE_FLAG_HARQ_ACK_SHIFT : Nat := 3

/-- Macro `#define TRX_WRITE_FLAG_HARQ_ACK0      (1 << TRX_WRITE_FLAG_HARQ_ACK_SHIFT)` -/
def TRX_WRITE_FLAG_HARQ_ACK0 : Nat := 1 <<< TRX_WRITE_FLAG_HARQ_ACK_SHIFT

/-- Macro `#define TRX_WRITE_FLAG_HARQ_ACK1 (1 << (TRX_WRITE_FLAG_HARQ_ACK_SHIFT + 1))` -/
def TRX_WRITE_FLAG_HARQ_ACK1 : Nat := 1 <<< (TRX_WRITE_FLAG_HARQ_ACK_SHIFT + 1)

/-- Macro `#define TRX_WRITE_FLAG_TA_PRESENT     (1 << 5)` -/
def TRX_WRITE_FLAG_TA_PRESENT : Nat := 1 <<< 5

/-- Macro `#define TRX_WRITE_FLAG_TA_SHIFT       6` -/
def TRX_WRITE_FLAG_TA_SHIFT : Nat := 6

/-! ## Machine integers -/

/-- A value fits a two's-complement signed integer of `bits` bits. -/
def intFits (bits : Nat) (x : Int) : Prop :=
  -(2 : Int) ^ (bits - 1) ≤ x ∧ x < (2 : Int) ^ (bits - 1)

instance (bits : Nat) (x : Int) : Decidable (intFits bits x) := by
  unfold intFits; infer_instance

/-! ## Write flags -/

/-- The six named flags of a write call, in the order the header defines them. -/
inductive WriteFlag
  | padding
  | endOfBurst
  | harqAckPresent
  | harqAck0
  | harqAck1
  | taPresent
  deriving DecidableEq, Repr

/-- All six named flags, in the header's order. -/
def WriteFlag.all : List WriteFlag :=
  [.padding, .endOfBurst, .harqAckPresent, .harqAck0, .harqAck1, .taPresent]

/-- The mask the header gives each named flag. -/
def WriteFlag.mask : WriteFlag → Nat
  | .padding => TRX_WRITE_FLAG_PADDING
  | .endOfBurst => TRX_WRITE_FLAG_END_OF_BURST
  | .harqAckPresent => TRX_WRITE_FLAG_HARQ_ACK_PRESENT
  | .harqAck0 => TRX_WRITE_FLAG_HARQ_ACK0
  | .harqAck1 => TRX_WRITE_FLAG_HARQ_ACK1
  | .taPresent => TRX_WRITE_FLAG_TA_PRESENT

/-- Position of a flag in the header's order. -/
def WriteFlag.index : WriteFlag → Nat
  | .padding => 0
  | .endOfBurst => 1
  | .harqAckPresent => 2
  | .harqAck0 => 3
  | .harqAck1 => 4
  | .taPresent => 5

/-- A subset of the six named flags: one boolean per flag. -/
structure FlagSet where
  padding : Bool
  endOfBurst : Bool
  harqAckPresent : Bool
  harqAck0 : Bool
  harqAck1 : Bool
  taPresent : Bool
  deriving DecidableEq, Repr

/-- Membership of a named flag in a subset. -/
def FlagSet.has (fs : FlagSet) : WriteFlag → Bool
  | .padding => fs.padding
  | .endOfBurst => fs.endOfBurst
  | .harqAckPresent => fs.harqAckPresent
  | .harqAck0 => fs.harqAck0
  | .harqAck1 => fs.harqAck1
  | .taPresent => fs.taPresent

/-- The flags word of a subset: the bitwise OR of the masks of its members,
as a caller writes `TRX_WRITE_FLAG_A | TRX_WRITE_FLAG_B | ...`. -/
def FlagSet.word (fs : FlagSet) : Nat :=
  WriteFlag.all.foldl (fun w f => if fs.has f then w ||| f.mask else w) 0

/-- The C test `(flags & mask) != 0`. -/
def flagIsSet (flags mask : Nat) : Bool :=
  (flags &&& mask) != 0

/-- A flags word carrying flag bits `f` and a timing advance `ta`:
`f | (ta << TRX_WRITE_FLAG_TA_SHIFT)`. -/
def withTimingAdvance (f ta : Nat) : Nat :=
  f ||| (ta <<< TRX_WRITE_FLAG_TA_SHIFT)

/-- The timing advance read back from a flags word:
`(w >> TRX_WRITE_FLAG_TA_SHIFT) & 63`. -/
def timingAdvanceOf (w : Nat) : Nat :=
  (w >>> TRX_WRITE_FLAG_TA_SHIFT) &&& 63

/-- The six flag bits of a flags word: `w & 63`. -/
def flagBitsOf (w : Nat) : Nat :=
  w &&& 63

/-! ## Data model -/

/-- A C pointer that the header passes around without dereferencing it. -/
abbrev Ptr := Nat

/-- A C array `T a[cap]`: exactly `cap` elements. -/
structure CArray (α : Type) (cap : Nat) where
  elems : List α
  size_eq : elems.length = cap

/-- The number of elements of a C array, `sizeof a / sizeof a[0]`. -/
def CArray.capacity {α : Type} {cap : Nat} (a : CArray α cap) : Nat :=
  a.elems.length

/-- An array with every element equal to `x`. -/
def CArray.fill {α : Type} (cap : Nat) (x : α) : CArray α cap :=
  ⟨List.replicate cap x, List.length_replicate cap x⟩

/-- An array holding `xs` first and `x` in the remaining places. -/
def CArray.ofPrefix {α : Type} (cap : Nat) (xs : List α) (x : α) : CArray α cap :=
  ⟨xs.take cap ++ List.replicate (cap - (xs.take cap).length) x, by
    have h : (xs.take cap).length ≤ cap := by
      rw [List.length_take]; exact Nat.min_le_left _ _
    rw [List.length_append, List.length_replicate]; omega⟩

/-- Sum `a[0] + ... + a[n-1]`, the loop `for (i = 0; i < n; i++) sum += a[i]`. -/
def CArray.sumFirst {cap : Nat} (a : CArray Int cap) (n : Int) : Int :=
  (a.elems.take n.toNat).sum

/-- Type `typedef struct { int num; int den; } TRXFraction;` -/
structure TRXFraction where
  num : Int
  den : Int
  deriving DecidableEq, Repr

/-- Both members of a fraction fit an `int` of `bits` bits. -/
def TRXFraction.fits (bits : Nat) (f : TRXFraction) : Prop :=
  intFits bits f.num ∧ intFits bits f.den

/-- A fraction stands for the rate of `hz` Hz. -/
def TRXFraction.isRate (f : TRXFraction) (hz : Int) : Prop :=
  f.den ≠ 0 ∧ f.num = hz * f.den

/-- The unit of the pre-interpolation sample rate, 1.92 MHz, in Hz. -/
def SAMPLE_RATE_UNIT_HZ : Int := 1920000

/-- The form the header requires of the multiplier: `2^n1*3^n2*5^n3`. -/
def isForm235 (n : Nat) : Prop :=
  ∃ n1 n2 n3 : Nat, n = 2 ^ n1 * 3 ^ n2 * 5 ^ n3

/-- The anonymous enum of `dl_cyclic_prefix` and `ul_cyclic_prefix`. -/
inductive CyclicPrefix
  | TRX_CYCLIC_PREFIX_NORMAL
  | TRX_CYCLIC_PREFIX_EXTENDED
  deriving DecidableEq, Repr

/-- The anonymous enum of `type`. -/
inductive CellType
  | TRX_CELL_TYPE_FDD
  | TRX_CELL_TYPE_TDD
  deriving DecidableEq, Repr

/-- The member `u.tdd` of `TRXCellInfo`. -/
structure TddInfo where
  uldl_config : Fin 256
  special_subframe_config : Fin 256
  deriving DecidableEq, Repr

/-- Type `TRXCellInfo`; the union `u` has the one member `tdd`. -/
structure TRXCellInfo where
  rf_port_index : Int
  dl_earfcn : Fin 4294967296
  ul_earfcn : Fin 4294967296
  n_rb_dl : Int
  n_rb_ul : Int
  dl_cyclic_prefix : CyclicPrefix
  ul_cyclic_prefix : CyclicPrefix
  type : CellType
  tdd : TddInfo
  deriving DecidableEq, Repr

/-- Type `TRXDriverParams`; `D` is the type `double`. -/
structure TRXDriverParams (D : Type) where
  rx_channel_count : Int
  tx_channel_count : Int
  rx_freq : CArray Int TRX_MAX_CHANNELS
  tx_freq : CArray Int TRX_MAX_CHANNELS
  rx_gain : CArray D TRX_MAX_CHANNELS
  tx_gain : CArray D TRX_MAX_CHANNELS
  rx_bandwidth : CArray Int TRX_MAX_CHANNELS
  tx_bandwidth : CArray Int TRX_MAX_CHANNELS
  rf_port_count : Int
  sample_rate : CArray TRXFraction TRX_MAX_RF_PORT
  tx_port_channel_count : CArray Int TRX_MAX_RF_PORT
  rx_port_channel_count : CArray Int TRX_MAX_RF_PORT
  cell_info : List TRXCellInfo
  cell_count : Int

/-- Type `TRXStatistics`. -/
structure TRXStatistics where
  tx_underflow_count : Int
  rx_overflow_count : Int
  deriving DecidableEq, Repr

/-- Type `struct TRXState`. `M` is the memory of the process and `D` the type
`double`. The two lookup callbacks are host code: each receives `app_opaque`
and its arguments, may read and update any part of the memory (the object
holding these very members included, when a pointer it has reaches it), and
returns its result. `trx_get_param_double` receives the content of the slot
`*pval` and returns, next to its status, the content it leaves there. The
operations of the function table are never called by the header and are kept
as code addresses. The member `opaque` is named `opaque_`. -/
structure TRXState (M D : Type) where
  trx_api_version : Int
  app_opaque : Ptr
  trx_get_param_string : Ptr → String → M → Option String × M
  trx_get_param_double : Ptr → D → String → M → Int × D × M
  reserved : CArray Ptr 127
  path : Option String
  opaque_ : Ptr
  trx_get_sample_rate_func : Ptr
  trx_start_func : Ptr
  trx_write_func : Ptr
  trx_read_func : Ptr
  trx_set_tx_gain_func : Ptr
  trx_set_rx_gain_func : Ptr
  trx_end_func : Ptr
  trx_get_tx_samples_per_packet_func : Ptr
  trx_get_stats : Ptr
  trx_get_info : Ptr
  trx_get_abs_tx_power_func : Ptr
  trx_get_abs_rx_power_func : Ptr

/-- What a call runs on: the memory, and the argument `s` of the operations as
the way to read the object `*s` out of a memory. The object is part of the
memory, so a store into the memory may change what `deref` reads. -/
structure Machine (M D : Type) where
  mem : M
  deref : M → TRXState M D

/-- The object `*s` as the memory holds it. -/
def Machine.s {M D : Type} (m : Machine M D) : TRXState M D :=
  m.deref m.mem

/-! ## The inline operations -/

/-- Function `trx_get_param_string(s, prop_name)`:
`return s->trx_get_param_string(s->app_opaque, prop_name);`
The result is the returned string (`none` for `NULL`) and the memory after
the call. -/
def trx_get_param_string {M D : Type} (m : Machine M D) (prop_name : String) :
    Option String × Machine M D :=
  let r := m.s.trx_get_param_string m.s.app_opaque prop_name m.mem
  (r.1, { m with mem := r.2 })

/-- Function `trx_get_param_double(s, pval, prop_name)`:
`return s->trx_get_param_double(s->app_opaque, pval, prop_name);`
`pval` is the content of the slot before the call; the result is the returned
status, the content of the slot after the call, and the memory after the
call. -/
def trx_get_param_double {M D : Type} (m : Machine M D) (pval : D) (prop_name : String) :
    Int × D × Machine M D :=
  let r := m.s.trx_get_param_double m.s.app_opaque pval prop_name m.mem
  (r.1, r.2.1, { m with mem := r.2.2 })

/-! ## Operations behind the function table

The header declares `trx_start_func` and `trx_write_func` as members of the
function table and holds no body for them. What the properties below need of
them is modelled from the specification. -/

/-- Modelled from the spec: the lifecycle states `Uninitialized → Initialized →
Started → Stopped`, with the `initialize` transition itself as `Initializing`.
The header has no type for them and no member of `TRXState` records one. -/
inductive Phase
  | Uninitialized
  | Initializing
  | Initialized
  | Started
  | Stopped
  deriving DecidableEq, Repr

/-- Modelled from the spec: a driver at some point of its life, the lifecycle
phase it is in next to the memory the header's operations work on. -/
structure Instance (M D : Type) where
  phase : Phase
  m : Machine M D

/-- Modelled from the spec: the parameter validation of `start`, the operation
behind `trx_start_func`, whose body the header does not hold. It "validates
DriverParams (port/channel sum invariants, frequency/bandwidth bounds, rf-port
count ≤ max)". The frequency and bandwidth bounds belong to the hardware and
are the argument `boundsOk`. The port count is checked first, so the sums run
over members of the arrays only. -/
def validateParams {D : Type} (boundsOk : TRXDriverParams D → Bool)
    (p : TRXDriverParams D) : Bool :=
  decide (p.rf_port_count ≤ (TRX_MAX_RF_PORT : Int)) &&
  decide (p.tx_port_channel_count.sumFirst p.rf_port_count = p.tx_channel_count) &&
  decide (p.rx_port_channel_count.sumFirst p.rf_port_count = p.rx_channel_count) &&
  boundsOk p

/-- Modelled from the spec: `start(DriverParams) -> status`, the operation
behind `trx_start_func`, whose body the header does not hold ("Return 0 if OK,
< 0 if" not). Parameters that fail validation are a configuration error; then
the hardware is acquired (`acquire`), which may fail; both failures give a
negative status. -/
def trx_start {D : Type} (boundsOk acquire : TRXDriverParams D → Bool)
    (p : TRXDriverParams D) : Int :=
  if validateParams boundsOk p then
    if acquire p then 0 else -1
  else -1

/-- Modelled from the spec: what the write operation makes of a call, accepted
or "rejected/counted as a protocol violation". -/
inductive WriteOutcome
  | accepted
  | protocolViolation
  deriving DecidableEq, Repr

/-- Modelled from the spec: the flag check of `write`, the operation behind
`trx_write_func`, whose body the header does not hold. "Padding and
end-of-burst flags are never observed set simultaneously in any accepted write
call"; a call with both is "rejected/counted as a protocol violation". `flags`
is the bit pattern of the `int flags` argument. -/
def trx_write_check (flags : Nat) : WriteOutcome :=
  if flagIsSet flags TRX_WRITE_FLAG_PADDING && flagIsSet flags TRX_WRITE_FLAG_END_OF_BURST then
    WriteOutcome.protocolViolation
  else
    WriteOutcome.accepted

/-! ## Concrete inputs -/

/-- A memory: the names the host was asked for, latest first, and the content
of the member `opaque` of the `TRXState` object. -/
structure ExampleMem where
  lookups : List String
  stateOpaque : Ptr
  deriving DecidableEq, Repr

/-- The address of the `TRXState` object in the example memory. -/
def STATE_ADDR : Ptr := 8192

/-- The address of the host's own context in the example memory. -/
def HOST_CONTEXT_ADDR : Ptr := 4096

/-- A host string lookup: records the name, knows `"name"` only. -/
def logStringLookup (_app : Ptr) (prop_name : String) (h : ExampleMem) :
    Option String × ExampleMem :=
  (if prop_name = "name" then some "sdr0" else none, { h with lookups := prop_name :: h.lookups })

/-- A host number lookup: records the name, knows `"tx_gain"` only and leaves
the slot alone otherwise. -/
def logDoubleLookup (_app : Ptr) (pval : Int) (prop_name : String) (h : ExampleMem) :
    Int × Int × ExampleMem :=
  if prop_name = "tx_gain" then (0, 70, { h with lookups := prop_name :: h.lookups })
  else (-1, pval, { h with lookups := prop_name :: h.lookups })

/-- A host string lookup that takes its first argument for a `TRXState *`:
`((TRXState *)app)->opaque = (void *)0x1234; return NULL;` -/
def pokeStringLookup (app : Ptr) (_prop_name : String) (h : ExampleMem) :
    Option String × ExampleMem :=
  if app = STATE_ADDR then (none, { h with stateOpaque := 4660 }) else (none, h)

/-- A host number lookup that takes its first argument for a `TRXState *`:
`((TRXState *)app)->opaque = (void *)0x1234; return -1;` -/
def pokeDoubleLookup (app : Ptr) (pval : Int) (_prop_name : String) (h : ExampleMem) :
    Int × Int × ExampleMem :=
  if app = STATE_ADDR then (-1, pval, { h with stateOpaque := 4660 }) else (-1, pval, h)

/-- The `TRXState` object of the example memory, for a given `app_opaque` and
pair of callbacks: its member `opaque` is read from the memory. -/
def stateIn (app : Ptr) (onString : Ptr → String → ExampleMem → Option String × ExampleMem)
    (onDouble : Ptr → Int → String → ExampleMem → Int × Int × ExampleMem)
    (mem : ExampleMem) : TRXState ExampleMem Int where
  trx_api_version := TRX_API_VERSION
  app_opaque := app
  trx_get_param_string := onString
  trx_get_param_double := onDouble
  reserved := CArray.fill 127 0
  path := some "config"
  opaque_ := mem.stateOpaque
  trx_get_sample_rate_func := 1
  trx_start_func := 2
  trx_write_func := 3
  trx_read_func := 4
  trx_set_tx_gain_func := 5
  trx_set_rx_gain_func := 6
  trx_end_func := 7
  trx_get_tx_samples_per_packet_func := 8
  trx_get_stats := 9
  trx_get_info := 10
  trx_get_abs_tx_power_func := 11
  trx_get_abs_rx_power_func := 12

/-- A driver state with the two logging callbacks and `app_opaque` pointing to
the host's own context, in a memory where nothing has been looked up yet. -/
def exampleMachine : Machine ExampleMem Int :=
  { mem := { lookups := [], stateOpaque := 0 },
    deref := stateIn HOST_CONTEXT_ADDR logStringLookup logDoubleLookup }

/-- A driver state whose `app_opaque` is the address of the state itself and
whose callbacks store through it. -/
def aliasedMachine : Machine ExampleMem Int :=
  { mem := { lookups := [], stateOpaque := 0 },
    deref := stateIn STATE_ADDR pokeStringLookup pokeDoubleLookup }

/-- The example driver after `start` has succeeded. -/
def startedInstance : Instance ExampleMem Int :=
  { phase := Phase.Started, m := exampleMachine }

/-- Parameters with the given totals, port count and per-port counts, and
zeros elsewhere. -/
def exampleParams (rx tx ports : Int) (txPorts rxPorts : List Int) : TRXDriverParams Int where
  rx_channel_count := rx
  tx_channel_count := tx
  rx_freq := CArray.fill _ 0
  tx_freq := CArray.fill _ 0
  rx_gain := CArray.fill _ 0
  tx_gain := CArray.fill _ 0
  rx_bandwidth := CArray.fill _ 0
  tx_bandwidth := CArray.fill _ 0
  rf_port_count := ports
  sample_rate := CArray.fill _ ⟨30720000, 1⟩
  tx_port_channel_count := CArray.ofPrefix _ txPorts 0
  rx_port_channel_count := CArray.ofPrefix _ rxPorts 0
  cell_info := []
  cell_count := 0

/-! ## Properties of the write flags -/

/-- Testing a flag's mask on the word of a subset reads back membership. -/
theorem flagIsSet_word (fs : FlagSet) (f : WriteFlag) :
    flagIsSet fs.word f.mask = fs.has f := by
  obtain ⟨a, b, c, d, e, g⟩ := fs
  cases f <;> cases a <;> cases b <;> cases c <;> cases d <;> cases e <;> cases g <;> decide

/-- The word of a subset of the six flags lies below `2 ^ 6`. -/
theorem word_lt (fs : FlagSet) : fs.word < 64 := by
  obtain ⟨a, b, c, d, e, g⟩ := fs
  cases a <;> cases b <;> cases c <;> cases d <;> cases e <;> cases g <;> decide

set_option maxRecDepth 100000 in
/-- Packing and unpacking of a six-bit field above six flag bits. -/
theorem pack_unpack :
    ∀ f < 64, ∀ ta < 64,
      timingAdvanceOf (withTimingAdvance f ta) = ta ∧
      flagBitsOf (withTimingAdvance f ta) = f ∧
      withTimingAdvance f ta < 2 ^ 12 := by
  decide


/-- Two's-complement `int` types grow with their width. -/
theorem intFits_mono {a b : Nat} (hab : a ≤ b) (ha : 1 ≤ a) {x : Int} (h : intFits a x) :
    intFits b x := by
  have hp : (2 : Int) ^ (a - 1) ≤ (2 : Int) ^ (b - 1) :=
    pow_le_pow_right₀ (by norm_num) (by omega)
  unfold intFits at *
  omega

/-! ## The write flags -/

/-- C8: the six named write-flag masks are the single bits 0 to 5 in the
header's order (the mask of the flag at position `i` is `2 ^ i`), any two of
them are disjoint, every subset of the flags has a word below `2 ^ 6` from
which each flag is read back by testing its own mask, and two subsets with
the same word are the same subset. -/
theorem write_flag_masks_are_bits_0_to_5 :
    WriteFlag.all.map WriteFlag.mask = [1, 2, 4, 8, 16, 32] ∧
    WriteFlag.all.map WriteFlag.index = [0, 1, 2, 3, 4, 5] ∧
    (∀ f : WriteFlag, f ∈ WriteFlag.all ∧ f.mask = 2 ^ f.index) ∧
    (∀ f g : WriteFlag, f ≠ g → f.mask &&& g.mask = 0) ∧
    (∀ (fs : FlagSet) (f : WriteFlag), flagIsSet fs.word f.mask = fs.has f) ∧
    (∀ fs : FlagSet, fs.word < 2 ^ 6) ∧
    (∀ fs gs : FlagSet, fs.word = gs.word → fs = gs) := by
  refine ⟨by decide, by decide, ?_, ?_, flagIsSet_word, word_lt, ?_⟩
  · intro f; cases f <;> decide
  · intro f g; cases f <;> cases g <;> decide
  · intro fs gs h
    have key : ∀ f : WriteFlag, fs.has f = gs.has f := fun f => by
      rw [← flagIsSet_word fs f, ← flagIsSet_word gs f, h]
    have h0 := key .padding
    have h1 := key .endOfBurst
    have h2 := key .harqAckPresent
    have h3 := key .harqAck0
    have h4 := key .harqAck1
    have h5 := key .taPresent
    obtain ⟨a, b, c, d, e, g⟩ := fs
    obtain ⟨a', b', c', d', e', g'⟩ := gs
    simp only [FlagSet.has] at h0 h1 h2 h3 h4 h5
    simp [h0, h1, h2, h3, h4, h5]

/-- C9: for every timing advance `ta < 64`, every subset `fs` of the six named
flags and every `int` width of at least 16 bits, the word
`w = fs.word | (ta << TRX_WRITE_FLAG_TA_SHIFT)` gives back the timing advance
as `(w >> TRX_WRITE_FLAG_TA_SHIFT) & 63` and the flag bits as `w & 63`, each
named flag is read from `w` as from `fs.word`, and `w` is below `2 ^ 12` and
fits `int`. -/
theorem timing_advance_round_trip (fs : FlagSet) (ta bits : Nat) (hta : ta < 64)
    (hbits : 16 ≤ bits) :
    timingAdvanceOf (withTimingAdvance fs.word ta) = ta ∧
    flagBitsOf (withTimingAdvance fs.word ta) = fs.word ∧
    (∀ f : WriteFlag, flagIsSet (flagBitsOf (withTimingAdvance fs.word ta)) f.mask = fs.has f) ∧
    withTimingAdvance fs.word ta < 2 ^ 12 ∧
    intFits bits (withTimingAdvance fs.word ta) := by
  obtain ⟨h1, h2, h3⟩ := pack_unpack fs.word (word_lt fs) ta hta
  refine ⟨h1, h2, ?_, h3, ?_⟩
  · intro f; rw [h2]; exact flagIsSet_word fs f
  · apply intFits_mono hbits (by norm_num)
    unfold intFits
    constructor <;> norm_num <;> omega

/-- Witness of C9: timing advance 42 on top of padding and timing-advance-present,
for a 32-bit `int`. -/
theorem timing_advance_round_trip_witness :
    timingAdvanceOf (withTimingAdvance (FlagSet.mk true false false false false true).word 42) = 42 ∧
    flagBitsOf (withTimingAdvance (FlagSet.mk true false false false false true).word 42) = 33 ∧
    withTimingAdvance (FlagSet.mk true false false false false true).word 42 = 2721 ∧
    intFits 32 2721 := by
  have h := timing_advance_round_trip (FlagSet.mk true false false false false true) 42 32
    (by decide) (by decide)
  refine ⟨h.1, ?_, by decide, by decide⟩
  rw [h.2.1]; decide

/-- C1: the write operation accepts a call exactly when its flags word does not
have both `TRX_WRITE_FLAG_PADDING` and `TRX_WRITE_FLAG_END_OF_BURST` set; a
call with both set is a protocol violation. This holds for every flags word,
and so for the word of each of the 64 subsets of the named flags. -/
theorem write_accepted_iff_not_padding_and_end_of_burst :
    (∀ flags : Nat, trx_write_check flags = WriteOutcome.accepted ↔
      ¬ (flagIsSet flags TRX_WRITE_FLAG_PADDING = true ∧
         flagIsSet flags TRX_WRITE_FLAG_END_OF_BURST = true)) ∧
    (∀ flags : Nat, flagIsSet flags TRX_WRITE_FLAG_PADDING = true →
      flagIsSet flags TRX_WRITE_FLAG_END_OF_BURST = true →
      trx_write_check flags = WriteOutcome.protocolViolation) ∧
    (∀ fs : FlagSet, trx_write_check fs.word = WriteOutcome.accepted ↔
      ¬ (fs.padding = true ∧ fs.endOfBurst = true)) := by
  have general : ∀ flags : Nat, trx_write_check flags = WriteOutcome.accepted ↔
      ¬ (flagIsSet flags TRX_WRITE_FLAG_PADDING = true ∧
         flagIsSet flags TRX_WRITE_FLAG_END_OF_BURST = true) := by
    intro flags
    unfold trx_write_check
    cases flagIsSet flags TRX_WRITE_FLAG_PADDING <;>
      cases flagIsSet flags TRX_WRITE_FLAG_END_OF_BURST <;> simp
  refine ⟨general, ?_, ?_⟩
  · intro flags hp he
    unfold trx_write_check
    simp [hp, he]
  · intro fs
    rw [general]
    have hp := flagIsSet_word fs WriteFlag.padding
    have he := flagIsSet_word fs WriteFlag.endOfBurst
    simp only [WriteFlag.mask, FlagSet.has] at hp he
    rw [hp, he]

/-! ## Start -/

/-- C2: `start` returns 0 only for parameters whose per-port TX channel counts,
summed over the first `rf_port_count` ports, equal `tx_channel_count` and whose
per-port RX channel counts summed likewise equal `rx_channel_count`;
parameters that break either equality get a negative status, whatever the
hardware's bounds check and acquisition answer. -/
theorem start_succeeds_only_with_channel_sums {D : Type}
    (boundsOk acquire : TRXDriverParams D → Bool) (p : TRXDriverParams D) :
    (trx_start boundsOk acquire p = 0 →
      p.tx_port_channel_count.sumFirst p.rf_port_count = p.tx_channel_count ∧
      p.rx_port_channel_count.sumFirst p.rf_port_count = p.rx_channel_count) ∧
    (¬ (p.tx_port_channel_count.sumFirst p.rf_port_count = p.tx_channel_count ∧
        p.rx_port_channel_count.sumFirst p.rf_port_count = p.rx_channel_count) →
      trx_start boundsOk acquire p < 0) := by
  constructor
  · intro h
    unfold trx_start at h
    by_cases hv : validateParams boundsOk p = true
    · unfold validateParams at hv
      simp only [Bool.and_eq_true, decide_eq_true_eq] at hv
      exact ⟨hv.1.1.2, hv.1.2⟩
    · simp [hv] at h
  · intro hne
    unfold trx_start
    by_cases hv : validateParams boundsOk p = true
    · exfalso
      apply hne
      unfold validateParams at hv
      simp only [Bool.and_eq_true, decide_eq_true_eq] at hv
      exact ⟨hv.1.1.2, hv.1.2⟩
    · simp [hv]

/-- Witness of C2: two ports with TX counts 1 and 1 and RX counts 2 and 1 start
when the totals are 2 and 3, and are refused with status -1 when the TX total
is given as 3. -/
theorem start_succeeds_only_with_channel_sums_witness :
    trx_start (fun _ => true) (fun _ => true) (exampleParams 3 2 2 [1, 1] [2, 1]) = 0 ∧
    (exampleParams 3 2 2 [1, 1] [2, 1]).tx_port_channel_count.sumFirst 2 = 2 ∧
    (exampleParams 3 2 2 [1, 1] [2, 1]).rx_port_channel_count.sumFirst 2 = 3 ∧
    trx_start (fun _ => true) (fun _ => true) (exampleParams 3 3 2 [1, 1] [2, 1]) = -1 := by
  have h := (start_succeeds_only_with_channel_sums (fun _ => true) (fun _ => true)
    (exampleParams 3 2 2 [1, 1] [2, 1])).1 (by decide)
  exact ⟨by decide, h.1, h.2, by decide⟩

/-! ## Parameter lookup -/

/-- Counterexample to C3: in the `Started` phase, outside `initialize`, both
lookups are forwarded to the host: the string lookup of `"name"` returns the
host's `"sdr0"` and the number lookup of `"tx_gain"` returns the host's status
0 and value 70, and each time the host has recorded the call. -/
theorem lookup_after_start_is_forwarded :
    startedInstance.phase ≠ Phase.Initializing ∧
    (trx_get_param_string startedInstance.m "name").1 = some "sdr0" ∧
    (trx_get_param_string startedInstance.m "name").2.mem.lookups = ["name"] ∧
    (trx_get_param_double startedInstance.m 0 "tx_gain").1 = 0 ∧
    (trx_get_param_double startedInstance.m 0 "tx_gain").2.1 = 70 ∧
    (trx_get_param_double startedInstance.m 0 "tx_gain").2.2.mem.lookups = ["tx_gain"] := by
  decide

/-- C3, amended: in every lifecycle phase `trx_get_param_string` and
`trx_get_param_double` forward the call to the host's lookup callback: the
result is the callback's and the memory after the call is the one the
callback leaves. The phase of the driver has no part in it. -/
theorem lookup_forwarded_in_every_phase {M D : Type} (i : Instance M D) (pval : D)
    (prop_name : String) :
    (trx_get_param_string i.m prop_name).1 =
      (i.m.s.trx_get_param_string i.m.s.app_opaque prop_name i.m.mem).1 ∧
    (trx_get_param_string i.m prop_name).2.mem =
      (i.m.s.trx_get_param_string i.m.s.app_opaque prop_name i.m.mem).2 ∧
    (trx_get_param_double i.m pval prop_name).1 =
      (i.m.s.trx_get_param_double i.m.s.app_opaque pval prop_name i.m.mem).1 ∧
    (trx_get_param_double i.m pval prop_name).2.1 =
      (i.m.s.trx_get_param_double i.m.s.app_opaque pval prop_name i.m.mem).2.1 ∧
    (trx_get_param_double i.m pval prop_name).2.2.mem =
      (i.m.s.trx_get_param_double i.m.s.app_opaque pval prop_name i.m.mem).2.2 ∧
    (∀ j : Instance M D, j.m = i.m →
      trx_get_param_string j.m prop_name = trx_get_param_string i.m prop_name ∧
      trx_get_param_double j.m pval prop_name = trx_get_param_double i.m pval prop_name) := by
  refine ⟨rfl, rfl, rfl, rfl, rfl, ?_⟩
  intro j hj
  rw [hj]
  exact ⟨rfl, rfl⟩

/-- C4: `trx_get_param_string(s, prop_name)` returns exactly what the string
lookup callback stored in `s` returns for `(s->app_opaque, prop_name)`; it
returns `NULL` exactly when the callback does. -/
theorem get_param_string_returns_callback_result {M D : Type} (m : Machine M D)
    (prop_name : String) :
    (trx_get_param_string m prop_name).1 =
      (m.s.trx_get_param_string m.s.app_opaque prop_name m.mem).1 ∧
    ((trx_get_param_string m prop_name).1 = none ↔
      (m.s.trx_get_param_string m.s.app_opaque prop_name m.mem).1 = none) ∧
    (∀ v : String,
      (trx_get_param_string m prop_name).1 = some v ↔
      (m.s.trx_get_param_string m.s.app_opaque prop_name m.mem).1 = some v) :=
  ⟨rfl, Iff.rfl, fun _ => Iff.rfl⟩

/-- Witness of C4: with the logging host, `"name"` is found and `"path"` is
absent. -/
theorem get_param_string_returns_callback_result_witness :
    (trx_get_param_string exampleMachine "name").1 = some "sdr0" ∧
    (trx_get_param_string exampleMachine "path").1 = none := by
  have h := get_param_string_returns_callback_result exampleMachine "path"
  exact ⟨by decide, h.2.1.2 (by decide)⟩

/-- C5: `trx_get_param_double(s, pval, prop_name)` returns exactly the status
that the number lookup callback stored in `s` returns for
`(s->app_opaque, pval, prop_name)` and leaves in `*pval` exactly what the
callback leaves there: status 0 with the value when the callback finds the
property, the callback's negative status when it does not. -/
theorem get_param_double_returns_callback_result {M D : Type} (m : Machine M D) (pval : D)
    (prop_name : String) :
    (trx_get_param_double m pval prop_name).1 =
      (m.s.trx_get_param_double m.s.app_opaque pval prop_name m.mem).1 ∧
    (trx_get_param_double m pval prop_name).2.1 =
      (m.s.trx_get_param_double m.s.app_opaque pval prop_name m.mem).2.1 ∧
    (∀ v : D,
      (m.s.trx_get_param_double m.s.app_opaque pval prop_name m.mem).1 = 0 →
      (m.s.trx_get_param_double m.s.app_opaque pval prop_name m.mem).2.1 = v →
      (trx_get_param_double m pval prop_name).1 = 0 ∧
      (trx_get_param_double m pval prop_name).2.1 = v) ∧
    ((m.s.trx_get_param_double m.s.app_opaque pval prop_name m.mem).1 < 0 →
      (trx_get_param_double m pval prop_name).1 < 0) :=
  ⟨rfl, rfl, fun _ h0 hv => ⟨h0, hv⟩, fun h => h⟩

/-- Witness of C5: with the logging host, `"tx_gain"` gives status 0 and value
70, and `"rx_gain"` gives status -1 and leaves the slot at 5. -/
theorem get_param_double_returns_callback_result_witness :
    (trx_get_param_double exampleMachine 5 "tx_gain").1 = 0 ∧
    (trx_get_param_double exampleMachine 5 "tx_gain").2.1 = 70 ∧
    (trx_get_param_double exampleMachine 5 "rx_gain").1 < 0 ∧
    (trx_get_param_double exampleMachine 5 "rx_gain").2.1 = 5 := by
  have h := get_param_double_returns_callback_result exampleMachine 5 "tx_gain"
  have h' := get_param_double_returns_callback_result exampleMachine 5 "rx_gain"
  exact ⟨(h.2.2.1 70 (by decide) (by decide)).1, (h.2.2.1 70 (by decide) (by decide)).2,
    h'.2.2.2 (by decide), by decide⟩

/-- Counterexample to C10: with `app_opaque` the address of the state itself
and callbacks that store through it, the member `opaque` of `*s` is 0 before
the call and 0x1234 = 4660 after `trx_get_param_string`, and likewise after
`trx_get_param_double`; the state after either call is not the state before. -/
theorem lookup_callback_can_change_state :
    aliasedMachine.s.app_opaque = STATE_ADDR ∧
    aliasedMachine.s.opaque_ = 0 ∧
    (trx_get_param_string aliasedMachine "name").2.s.opaque_ = 4660 ∧
    (trx_get_param_double aliasedMachine 0 "tx_gain").2.2.s.opaque_ = 4660 ∧
    (trx_get_param_string aliasedMachine "name").2.s ≠ aliasedMachine.s ∧
    (trx_get_param_double aliasedMachine 0 "tx_gain").2.2.s ≠ aliasedMachine.s := by
  refine ⟨by decide, by decide, by decide, by decide, ?_, ?_⟩
  · intro h
    have h' := congrArg TRXState.opaque_ h
    revert h'
    decide
  · intro h
    have h' := congrArg TRXState.opaque_ h
    revert h'
    decide

/-- C10, amended: the lookup wrappers store nothing themselves. After
`trx_get_param_string` and after `trx_get_param_double` the memory is exactly
the one the host callback leaves and `s` points where it did, so the state
after the call is `*s` as the callback leaves it; whenever the callback
leaves `*s` as it was, the state after the call is the state before it, member
by member (API version, `app_opaque`, both lookup callbacks, the reserved
block, `path`, the driver's `opaque` pointer and every operation of the
function table). -/
theorem lookup_changes_state_only_through_callback {M D : Type} (m : Machine M D) (pval : D)
    (prop_name : String) :
    ((trx_get_param_string m prop_name).2.mem =
        (m.s.trx_get_param_string m.s.app_opaque prop_name m.mem).2 ∧
      (trx_get_param_string m prop_name).2.deref = m.deref ∧
      (trx_get_param_string m prop_name).2.s =
        m.deref (m.s.trx_get_param_string m.s.app_opaque prop_name m.mem).2 ∧
      (m.deref (m.s.trx_get_param_string m.s.app_opaque prop_name m.mem).2 = m.s →
        (trx_get_param_string m prop_name).2.s = m.s)) ∧
    ((trx_get_param_double m pval prop_name).2.2.mem =
        (m.s.trx_get_param_double m.s.app_opaque pval prop_name m.mem).2.2 ∧
      (trx_get_param_double m pval prop_name).2.2.deref = m.deref ∧
      (trx_get_param_double m pval prop_name).2.2.s =
        m.deref (m.s.trx_get_param_double m.s.app_opaque pval prop_name m.mem).2.2 ∧
      (m.deref (m.s.trx_get_param_double m.s.app_opaque pval prop_name m.mem).2.2 = m.s →
        (trx_get_param_double m pval prop_name).2.2.s = m.s)) :=
  ⟨⟨rfl, rfl, rfl, fun h => h⟩, ⟨rfl, rfl, rfl, fun h => h⟩⟩

/-- Witness of C10, amended: the logging callbacks record the name and leave
`*s` alone, and the state after either lookup is the state before it, while
the memory has changed. -/
theorem lookup_changes_state_only_through_callback_witness :
    (trx_get_param_string exampleMachine "name").2.s = exampleMachine.s ∧
    (trx_get_param_double exampleMachine 5 "tx_gain").2.2.s = exampleMachine.s ∧
    (trx_get_param_string exampleMachine "name").2.mem ≠ exampleMachine.mem :=
  ⟨(lookup_changes_state_only_through_callback exampleMachine 5 "name").1.2.2.2 rfl,
    (lookup_changes_state_only_through_callback exampleMachine 5 "tx_gain").2.2.2.2 rfl,
    by decide⟩

/-! ## Capacities and the sample rate -/

/-- A C array has the capacity its type states. -/
theorem CArray.capacity_eq {α : Type} {cap : Nat} (a : CArray α cap) : a.capacity = cap :=
  a.size_eq

/-- C6: `TRX_MAX_RF_PORT = TRX_MAX_CHANNELS = 16`; each of the six per-channel
arrays and of the three per-port arrays of `TRXDriverParams` has exactly 16
elements; and for parameters whose `rx_channel_count`, `tx_channel_count` and
`rf_port_count` lie between 0 and 16, every index from 0 below the respective
count is inside the arrays it indexes. -/
theorem driver_params_indices_in_bounds {D : Type} (p : TRXDriverParams D)
    (hrx : 0 ≤ p.rx_channel_count ∧ p.rx_channel_count ≤ 16)
    (htx : 0 ≤ p.tx_channel_count ∧ p.tx_channel_count ≤ 16)
    (hport : 0 ≤ p.rf_port_count ∧ p.rf_port_count ≤ 16) :
    (TRX_MAX_CHANNELS = 16 ∧ TRX_MAX_RF_PORT = TRX_MAX_CHANNELS) ∧
    (p.rx_freq.capacity = 16 ∧ p.tx_freq.capacity = 16 ∧ p.rx_gain.capacity = 16 ∧
      p.tx_gain.capacity = 16 ∧ p.rx_bandwidth.capacity = 16 ∧
      p.tx_bandwidth.capacity = 16) ∧
    (p.sample_rate.capacity = 16 ∧ p.tx_port_channel_count.capacity = 16 ∧
      p.rx_port_channel_count.capacity = 16) ∧
    (∀ i : Int, 0 ≤ i → i < p.rx_channel_count →
      i.toNat < p.rx_freq.capacity ∧ i.toNat < p.rx_gain.capacity ∧
      i.toNat < p.rx_bandwidth.capacity) ∧
    (∀ i : Int, 0 ≤ i → i < p.tx_channel_count →
      i.toNat < p.tx_freq.capacity ∧ i.toNat < p.tx_gain.capacity ∧
      i.toNat < p.tx_bandwidth.capacity) ∧
    (∀ i : Int, 0 ≤ i → i < p.rf_port_count →
      i.toNat < p.sample_rate.capacity ∧ i.toNat < p.tx_port_channel_count.capacity ∧
      i.toNat < p.rx_port_channel_count.capacity) := by
  have hc : TRX_MAX_CHANNELS = 16 := rfl
  have e1 : p.rx_freq.capacity = 16 := p.rx_freq.capacity_eq
  have e2 : p.tx_freq.capacity = 16 := p.tx_freq.capacity_eq
  have e3 : p.rx_gain.capacity = 16 := p.rx_gain.capacity_eq
  have e4 : p.tx_gain.capacity = 16 := p.tx_gain.capacity_eq
  have e5 : p.rx_bandwidth.capacity = 16 := p.rx_bandwidth.capacity_eq
  have e6 : p.tx_bandwidth.capacity = 16 := p.tx_bandwidth.capacity_eq
  have e7 : p.sample_rate.capacity = 16 := p.sample_rate.capacity_eq
  have e8 : p.tx_port_channel_count.capacity = 16 := p.tx_port_channel_count.capacity_eq
  have e9 : p.rx_port_channel_count.capacity = 16 := p.rx_port_channel_count.capacity_eq
  refine ⟨⟨hc, rfl⟩, ⟨e1, e2, e3, e4, e5, e6⟩, ⟨e7, e8, e9⟩, ?_, ?_, ?_⟩
  · intro i h0 hi
    rw [e1, e3, e5]
    omega
  · intro i h0 hi
    rw [e2, e4, e6]
    omega
  · intro i h0 hi
    rw [e7, e8, e9]
    omega

/-- Witness of C6: parameters with 16 RX channels, 2 TX channels and 2 ports;
index 15 is inside the RX arrays and index 1 inside the TX and port arrays. -/
theorem driver_params_indices_in_bounds_witness :
    (exampleParams 16 2 2 [1, 1] [8, 8]).rx_channel_count = 16 ∧
    (15 : Int).toNat < (exampleParams 16 2 2 [1, 1] [8, 8]).rx_freq.capacity ∧
    (1 : Int).toNat < (exampleParams 16 2 2 [1, 1] [8, 8]).tx_gain.capacity ∧
    (1 : Int).toNat < (exampleParams 16 2 2 [1, 1] [8, 8]).rx_port_channel_count.capacity := by
  have h := driver_params_indices_in_bounds (exampleParams 16 2 2 [1, 1] [8, 8])
    (by decide) (by decide) (by decide)
  exact ⟨rfl, (h.2.2.2.1 15 (by decide) (by decide)).1,
    (h.2.2.2.2.1 1 (by decide) (by decide)).2.1,
    (h.2.2.2.2.2 1 (by decide) (by decide)).2.2⟩

/-- C7: the negotiated example meets the sample-rate contract: the multiplier
16 has the form `2^n1*3^n2*5^n3` (it is `2^4`, and 2 is its only prime
factor), 16 times 1.92 MHz is exactly 30720000 Hz, and for an `int` of at
least 32 bits the fraction 30720000/1 is a `TRXFraction` of that rate whose
members fit `int`. -/
theorem negotiated_example_meets_rate_contract (bits : Nat) (hbits : 32 ≤ bits) :
    isForm235 16 ∧
    (16 : Nat) = 2 ^ 4 * 3 ^ 0 * 5 ^ 0 ∧
    (∀ q : Nat, q.Prime → q ∣ 16 → q = 2) ∧
    16 * SAMPLE_RATE_UNIT_HZ = 30720000 ∧
    (TRXFraction.mk 30720000 1).isRate (16 * SAMPLE_RATE_UNIT_HZ) ∧
    (TRXFraction.mk 30720000 1).fits bits := by
  refine ⟨⟨4, 0, 0, by norm_num⟩, by norm_num, ?_, by decide, ⟨by decide, by decide⟩, ?_, ?_⟩
  · intro q hq hdvd
    have h16 : (16 : Nat) = 2 ^ 4 := by norm_num
    rw [h16] at hdvd
    exact (Nat.prime_dvd_prime_iff_eq hq Nat.prime_two).mp (hq.dvd_of_dvd_pow hdvd)
  · exact intFits_mono hbits (by norm_num) (by decide)
  · exact intFits_mono hbits (by norm_num) (by decide)

/-- Witness of C7: a 32-bit `int` holds 30720000/1. -/
theorem negotiated_example_meets_rate_contract_witness :
    isForm235 16 ∧ 16 * SAMPLE_RATE_UNIT_HZ = 30720000 ∧
    (TRXFraction.mk 30720000 1).fits 32 :=
  ⟨(negotiated_example_meets_rate_contract 32 (by decide)).1,
    (negotiated_example_meets_rate_contract 32 (by decide)).2.2.2.1,
    (negotiated_example_meets_rate_contract 32 (by decide)).2.2.2.2.2⟩

end TRX
